import Mathlib

/-!
Shallow embedding of three Tone.js components and the collaborators their
behaviour depends on:

* `src/Tone/effect/Convolver.ts` — the convolution effect, its owned
  `ToneAudioBuffer`, its native convolution unit, and the buffer setter's
  internal-channel substitution (unit swap);
* `src/Tone/component/channel/CrossFade.ts` — the equal-power crossfader and
  its derived gain curves;
* `src/Tone/component/envelope/AmplitudeEnvelope.ts` — the amplitude envelope
  wired onto a pass-through gain node.

Machine state is modelled as explicit records; connection graphs are lists of
directed edges between named nodes; sample data is a list of integers (the
claims never depend on sample arithmetic, only on lengths and identity).
Collaborators that are not part of the given source subset (the `Effect` base
class wiring, `ToneAudioBuffer`, the native nodes, the `Envelope` trigger
methods) are modelled from the spec and marked as such in their doc comments.
-/

/-- Modelled from the spec: the Resource Buffer (`ToneAudioBuffer`, not in the
given source subset) owns a block of sample data; its length is 0 exactly when
it is empty, and `length > 0` iff `loaded`. -/
structure ToneAudioBuffer where
  data : List Int
  deriving DecidableEq, Repr

/-- The number of samples held by the buffer (0 when empty). -/
def ToneAudioBuffer.length (b : ToneAudioBuffer) : Nat :=
  b.data.length

/-- Modelled from the spec: the Resource Buffer's loaded flag; the spec
invariant is `length > 0` iff `loaded`. -/
def ToneAudioBuffer.loaded (b : ToneAudioBuffer) : Bool :=
  !b.data.isEmpty

/-- Modelled from the spec: `ToneAudioBuffer.set` copies the source buffer's
sample data into this buffer. -/
def ToneAudioBuffer.set (dst src : ToneAudioBuffer) : ToneAudioBuffer :=
  { dst with data := src.data }

/-- Modelled from the spec: `ToneAudioBuffer.get` resolves the underlying raw
sample data, or absence when the buffer holds none. -/
def ToneAudioBuffer.get (b : ToneAudioBuffer) : Option (List Int) :=
  if b.data.isEmpty then none else some b.data

/-- Nodes of the Convolver's connection graph: the effect's own ports, the
internal send/return stages of the `Effect` base class, the native convolution
units (identified by a generation number so that a swapped-in unit is a fresh
node), and external nodes belonging to the rest of the audio graph. -/
inductive ConvNode where
  | input
  | output
  | effectSend
  | effectReturn
  | dryWet
  | unit (id : Nat)
  | ext (n : Nat)
  deriving DecidableEq, Repr

/-- State of a `Convolver` effect.  `convolverId` is the identity of the
current native convolution unit, `convolverBuffer` and `normalize` are that
unit's `buffer` and `normalize` attributes, `buf` is the owned
`ToneAudioBuffer` (`_buffer`), `nextId` is the fresh-identity counter used
when `createConvolver` makes a new native unit, `edges` is the directed
connection graph, and `retired` is ghost state recording each unit discarded
by a swap together with the buffer it held at that moment (in the source the
old native node simply becomes unreferenced; its `buffer` attribute is never
written again, which the ghost list makes provable). -/
structure ConvolverState where
  convolverId : Nat
  convolverBuffer : Option (List Int)
  normalize : Bool
  buf : ToneAudioBuffer
  nextId : Nat
  edges : List (ConvNode × ConvNode)
  retired : List (Nat × Option (List Int))
  disposed : Bool
  deriving DecidableEq, Repr

/-- Modelled from the spec: `connectEffect` wires the native unit between the
effect's internal send and return stages, i.e. it adds the two internal edges
`effectSend → unit` and `unit → effectReturn`. -/
def connectEffectEdges (id : Nat) : List (ConvNode × ConvNode) :=
  [(ConvNode.effectSend, ConvNode.unit id), (ConvNode.unit id, ConvNode.effectReturn)]

/-- `disconnect()` on a node with no arguments: remove every outgoing edge of
that node from the graph. -/
def disconnectAllFrom (n : ConvNode) (es : List (ConvNode × ConvNode)) :
    List (ConvNode × ConvNode) :=
  es.filter (fun e => e.1 ≠ n)

/-- The internal-channel substitution block of the buffer setter
(`Convolver.ts` lines 96–103): disconnect the send stage's outgoing edge and
the old unit's outgoing edge, create a fresh native unit (`createConvolver`,
whose `buffer` starts absent and whose `normalize` starts at the Web Audio
default `true`), and reconnect it in the same position via `connectEffect`.
The old unit and its buffer are pushed onto the ghost `retired` list. -/
def Convolver.swapUnit (s : ConvolverState) : ConvolverState :=
  { s with
    edges := connectEffectEdges s.nextId ++
      disconnectAllFrom (ConvNode.unit s.convolverId)
        (disconnectAllFrom ConvNode.effectSend s.edges)
    retired := (s.convolverId, s.convolverBuffer) :: s.retired
    convolverId := s.nextId
    convolverBuffer := none
    normalize := true
    nextId := s.nextId + 1 }

/-- First half of the buffer setter: `if (buffer) { this._buffer.set(buffer) }`
— a non-null argument has its data copied into the owned Resource Buffer, a
null argument stores nothing. -/
def Convolver.storeData : Option ToneAudioBuffer → ConvolverState → ConvolverState
  | some b, s => { s with buf := s.buf.set b }
  | none, s => s

/-- The `buffer` setter (`Convolver.ts` lines 91–106): store the data, then if
the current native unit already holds a buffer perform the unit swap, and
finally assign the resolved buffer (`_buffer.get()`, or null when unresolved)
to the current unit. -/
def Convolver.setBuffer (buffer : Option ToneAudioBuffer) (s : ConvolverState) :
    ConvolverState :=
  let s1 := Convolver.storeData buffer s
  let s2 := if s1.convolverBuffer.isSome then Convolver.swapUnit s1 else s1
  { s2 with convolverBuffer := s2.buf.get }

/-- The `buffer` getter (`Convolver.ts` lines 84–90): the owned buffer when its
length is nonzero, otherwise null. -/
def Convolver.getBuffer (s : ConvolverState) : Option ToneAudioBuffer :=
  if s.buf.length ≠ 0 then some s.buf else none

/-- The `normalize` getter: reads the current native unit's normalize flag. -/
def Convolver.getNormalize (s : ConvolverState) : Bool :=
  s.normalize

/-- The `normalize` setter: writes the current native unit's normalize flag. -/
def Convolver.setNormalize (norm : Bool) (s : ConvolverState) : ConvolverState :=
  { s with normalize := norm }

/-- `load(url)` after the external loader has resolved with decoded data `d`:
`this._buffer.load(url)` stores `d` into the owned buffer and resolves with
that buffer, which is then assigned through the `buffer` setter. -/
def Convolver.load (d : List Int) (s : ConvolverState) : ConvolverState :=
  let s1 := { s with buf := ⟨d⟩ }
  Convolver.setBuffer (some s1.buf) s1

/-- Failures of the external buffer loader. -/
inductive LoadError where
  | fetchError
  | decodeError
  deriving DecidableEq, Repr

/-- Modelled from the spec: `load(url)` awaits the external loader, which
either resolves with decoded sample data or rejects.  On rejection the `await`
re-raises, so the assignment `this.buffer = ...` on the next line of
`Convolver.load` never executes: the error propagates and the state is
untouched.  The result pairs the post-call state with the propagated error,
if any. -/
def Convolver.loadFrom (r : Except LoadError (List Int)) (s : ConvolverState) :
    ConvolverState × Option LoadError :=
  match r with
  | Except.ok d => (Convolver.load d s, none)
  | Except.error e => (s, some e)

/-- The no-op callback from `core/util/Interface`. -/
def noOp : Unit → Unit := fun _ => ()

/-- Constructor options of `Convolver`; `url` is modelled as optionally
synchronously-available decoded data (an inline buffer). -/
structure ConvolverOptions where
  url : Option (List Int)
  onload : Unit → Unit
  normalize : Bool

/-- `Convolver.getDefaults` (`Convolver.ts` lines 64–69): `normalize := true`,
`onload := noOp`, no url. -/
def Convolver.getDefaults : ConvolverOptions :=
  { url := none, onload := noOp, normalize := true }

/-- The `Convolver` constructor (`Convolver.ts` lines 42–62): a fresh native
unit (no buffer, normalize at the native default `true`), the owned buffer
built from the options' source, then — if that buffer is already loaded — the
`buffer` setter runs, then `normalize` is set from the options, and finally
`connectEffect` wires the unit up. -/
def mkConvolver (o : ConvolverOptions) : ConvolverState :=
  let s0 : ConvolverState :=
    { convolverId := 0
      convolverBuffer := none
      normalize := true
      buf := ⟨o.url.getD []⟩
      nextId := 1
      edges := []
      retired := []
      disposed := false }
  let s1 := if s0.buf.loaded then Convolver.setBuffer (some s0.buf) s0 else s0
  let s2 := Convolver.setNormalize o.normalize s1
  { s2 with edges := connectEffectEdges s2.convolverId ++ s2.edges }

/-- Sources whose outgoing edges are torn down when the Convolver disposes:
every node the effect owns (all but the external nodes). -/
def convDisposedSource : ConvNode → Bool
  | ConvNode.ext _ => false
  | _ => true

/-- `Convolver.dispose` (`Convolver.ts` lines 120–125): the base-class
disposal (modelled from the spec: disconnect all owned edges and mark the node
disposed), then `this._buffer.dispose()` (the owned buffer drops its data) and
`this._convolver.disconnect()`.  Disconnecting already-absent edges is a no-op
and never an error, so the whole function is total. -/
def Convolver.dispose (s : ConvolverState) : ConvolverState :=
  { s with
    disposed := true
    buf := ⟨[]⟩
    edges := s.edges.filter (fun e => !convDisposedSource e.1) }

/-- Invariant established by the constructor and preserved by every operation:
unit identities drawn so far are below the fresh counter, and the current
unit's buffer attribute is exactly the resolved owned buffer. -/
abbrev ConvInv (s : ConvolverState) : Prop :=
  s.convolverId < s.nextId ∧ s.convolverBuffer = s.buf.get

/-- Nodes of the CrossFade's connection graph (`CrossFade.ts`): the context's
constant-1 source, the stereo panner, the channel splitter, the fade signal
and its gain-to-audio converter, the two input gain stages and their gain
parameters, the output gain, and external nodes. -/
inductive CFNode where
  | constantSource
  | panner
  | split
  | g2a
  | fadeSig
  | aGain
  | aGainParam
  | bGain
  | bGainParam
  | outputGain
  | ext (n : Nat)
  deriving DecidableEq, Repr

/-- State of a `CrossFade`: the fade signal's value, the disposed flag, and
the connection graph. -/
structure CrossFadeState where
  fadeValue : ℚ
  disposed : Bool
  edges : List (CFNode × CFNode)
  deriving DecidableEq, Repr

/-- Constructor options of `CrossFade`. -/
structure CrossFadeOptions where
  fade : ℚ

/-- `CrossFade.getDefaults` (`CrossFade.ts` lines 124–128): `fade := 0.5`. -/
def CrossFade.getDefaults : CrossFadeOptions :=
  { fade := 1/2 }

/-- The wiring laid down by the CrossFade constructor (`CrossFade.ts` lines
113–121): constant 1 into the panner, panner into the splitter, splitter
channel 0 into `a.gain` and channel 1 into `b.gain`, the fade signal chained
through the gain-to-audio converter into `panner.pan`, and both input gains
into the output gain. -/
def crossFadeInitialEdges : List (CFNode × CFNode) :=
  [(CFNode.constantSource, CFNode.panner),
   (CFNode.panner, CFNode.split),
   (CFNode.split, CFNode.aGainParam),
   (CFNode.split, CFNode.bGainParam),
   (CFNode.fadeSig, CFNode.g2a),
   (CFNode.g2a, CFNode.panner),
   (CFNode.aGain, CFNode.outputGain),
   (CFNode.bGain, CFNode.outputGain)]

/-- The `CrossFade` constructor (`CrossFade.ts` lines 102–122): the fade
signal takes the option's value and the graph above is laid down. -/
def mkCrossFade (o : CrossFadeOptions) : CrossFadeState :=
  { fadeValue := o.fade
    disposed := false
    edges := crossFadeInitialEdges }

/-- Sources whose outgoing edges are torn down by `CrossFade.dispose`: the
owned sub-nodes `a`, `b`, `output`, `fade`, `_g2a` and the disconnected
`_panner` and `_split` (the context-owned constant source is not the
crossfader's to tear down). -/
def cfDisposedSource : CFNode → Bool
  | CFNode.aGain => true
  | CFNode.bGain => true
  | CFNode.outputGain => true
  | CFNode.fadeSig => true
  | CFNode.g2a => true
  | CFNode.panner => true
  | CFNode.split => true
  | _ => false

/-- `CrossFade.dispose` (`CrossFade.ts` lines 130–140): base disposal marks
the node disposed, the owned sub-nodes dispose (each disconnecting its
outgoing edges), and the panner and splitter disconnect.  Total: disconnecting
an absent edge is a no-op, never an error. -/
def CrossFade.dispose (s : CrossFadeState) : CrossFadeState :=
  { s with
    disposed := true
    edges := s.edges.filter (fun e => !cfDisposedSource e.1) }

/-- Modelled from the spec: `GainToAudio` maps the normal range [0,1] onto the
audio range [-1,1]. -/
noncomputable def gainToAudio (v : ℝ) : ℝ :=
  2 * v - 1

/-- Modelled from the spec: the native stereo panner maps a pan position in
[-1,1] to the phase domain [0, π/2] of a sine/cosine equal-power split. -/
noncomputable def pannerPhase (pan : ℝ) : ℝ :=
  (pan + 1) / 2 * (Real.pi / 2)

/-- The derived gain driving input `a`: the panner's left-channel gain
(cosine of the phase) for the pan position produced from `fade`. -/
noncomputable def g_a (fade : ℝ) : ℝ :=
  Real.cos (pannerPhase (gainToAudio fade))

/-- The derived gain driving input `b`: the panner's right-channel gain
(sine of the phase) for the pan position produced from `fade`. -/
noncomputable def g_b (fade : ℝ) : ℝ :=
  Real.sin (pannerPhase (gainToAudio fade))

/-- Nodes of the AmplitudeEnvelope's connection graph: the envelope's
scheduled-parameter signal `_sig`, the pass-through gain node, that node's
gain control parameter, and external nodes. -/
inductive AENode where
  | sig
  | gainNode
  | gainParam
  | ext (n : Nat)
  deriving DecidableEq, Repr

/-- State of an `AmplitudeEnvelope`: the connection graph, the exposed input
and output ports, the signal's scheduled automation events (time, target
value), the ADSR durations/levels, and the disposed flag. -/
structure AmplitudeEnvelopeState where
  edges : List (AENode × AENode)
  inputPort : AENode
  outputPort : AENode
  events : List (ℚ × ℚ)
  attack : ℚ
  decay : ℚ
  sustain : ℚ
  release : ℚ
  disposed : Bool
  deriving DecidableEq, Repr

/-- The `AmplitudeEnvelope` constructor (`AmplitudeEnvelope.ts` lines 42–47):
the base envelope is built, `_sig` is connected once to `_gainNode.gain`, and
both the input and the output port are set to the pass-through gain node. -/
def mkAmplitudeEnvelope (a d su r : ℚ) : AmplitudeEnvelopeState :=
  { edges := [(AENode.sig, AENode.gainParam)]
    inputPort := AENode.gainNode
    outputPort := AENode.gainNode
    events := []
    attack := a
    decay := d
    sustain := su
    release := r
    disposed := false }

/-- Modelled from the spec: retriggering cancels only the automation events
strictly after the trigger time. -/
def cancelAfter (t : ℚ) (evs : List (ℚ × ℚ)) : List (ℚ × ℚ) :=
  evs.filter (fun e => decide (e.1 ≤ t))

/-- Modelled from the spec: `triggerAttack` schedules automation on the
Scheduled Parameter only — a ramp to 1 over the attack and on to the sustain
level over the decay — performing no connect or disconnect calls. -/
def triggerAttack (t : ℚ) (st : AmplitudeEnvelopeState) : AmplitudeEnvelopeState :=
  { st with
    events := cancelAfter t st.events ++
      [(t + st.attack, 1), (t + st.attack + st.decay, st.sustain)] }

/-- Modelled from the spec: `triggerRelease` schedules a ramp from the current
value down to 0 over the release duration, performing no connect or
disconnect calls. -/
def triggerRelease (t : ℚ) (st : AmplitudeEnvelopeState) : AmplitudeEnvelopeState :=
  { st with
    events := cancelAfter t st.events ++ [(t + st.release, 0)] }

/-- Modelled from the spec: `triggerAttackRelease duration t` is the attack at
`t` composed with the release at `t + duration`. -/
def triggerAttackRelease (dur t : ℚ) (st : AmplitudeEnvelopeState) :
    AmplitudeEnvelopeState :=
  triggerRelease (t + dur) (triggerAttack t st)

/-- Sources whose outgoing edges are torn down by `AmplitudeEnvelope.dispose`:
the owned signal and gain node (and the gain parameter they drive). -/
def aeDisposedSource : AENode → Bool
  | AENode.ext _ => false
  | _ => true

/-- `AmplitudeEnvelope.dispose` (`AmplitudeEnvelope.ts` lines 52–56): the base
envelope disposes (its signal drops its scheduled events and disconnects) and
the gain node disposes.  Total: never an error. -/
def AmplitudeEnvelope.dispose (st : AmplitudeEnvelopeState) : AmplitudeEnvelopeState :=
  { st with
    disposed := true
    events := []
    edges := st.edges.filter (fun e => !aeDisposedSource e.1) }

/-- Filtering a list twice with the same predicate is the same as filtering it
once. -/
theorem filter_idem {α : Type} (p : α → Bool) (l : List α) :
    (l.filter p).filter p = l.filter p := by
  induction l with
  | nil => rfl
  | cons a t ih => cases h : p a <;> simp [List.filter_cons, h, ih]

/-- Claim C5: the `buffer` getter returns the backing Resource Buffer exactly
when the buffer's length is nonzero, and returns `none` (absence, not a raised
error) whenever the length is zero. -/
theorem convolver_buffer_getter (s : ConvolverState) :
    (s.buf.length ≠ 0 → Convolver.getBuffer s = some s.buf) ∧
    (s.buf.length = 0 → Convolver.getBuffer s = none) := by
  constructor <;> intro h <;> simp [Convolver.getBuffer, h]

/-- Witness for C5 at concrete inputs: a freshly constructed Convolver has an
empty buffer, so the getter returns `none`; after assigning a three-sample
buffer the getter returns it. -/
theorem convolver_buffer_getter_witness :
    Convolver.getBuffer (mkConvolver Convolver.getDefaults) = none :=
  (convolver_buffer_getter (mkConvolver Convolver.getDefaults)).2 (by decide)

/-- Claim C7: `dispose` on a CrossFade, a Convolver, and an AmplitudeEnvelope
is idempotent — the second call changes no state — and, being a total
function built from edge filtering and flag assignment, never raises. -/
theorem dispose_idempotent (sa : CrossFadeState) (sb : ConvolverState)
    (sc : AmplitudeEnvelopeState) :
    CrossFade.dispose (CrossFade.dispose sa) = CrossFade.dispose sa ∧
    Convolver.dispose (Convolver.dispose sb) = Convolver.dispose sb ∧
    AmplitudeEnvelope.dispose (AmplitudeEnvelope.dispose sc)
      = AmplitudeEnvelope.dispose sc := by
  refine ⟨?_, ?_, ?_⟩ <;>
    simp [CrossFade.dispose, Convolver.dispose, AmplitudeEnvelope.dispose, filter_idem]

/-- Claim C8: a CrossFade constructed with no fade argument has fade 0.5, and
a Convolver constructed with no options has `normalize = true` and
`onload = noOp`. -/
theorem construction_defaults :
    CrossFade.getDefaults.fade = 1/2 ∧
    (mkCrossFade CrossFade.getDefaults).fadeValue = 1/2 ∧
    Convolver.getDefaults.normalize = true ∧
    Convolver.getDefaults.onload = noOp ∧
    Convolver.getNormalize (mkConvolver Convolver.getDefaults) = true := by
  refine ⟨rfl, rfl, rfl, rfl, rfl⟩

/-- Claim C9: the envelope's scheduled-parameter signal is connected exactly
once, at construction, to the gain node's gain control; after construction the
exposed input and output ports are both the pass-through gain node; and the
envelope's operations (the triggers, which only schedule automation) neither
establish nor change this wiring or those ports. -/
theorem amplitude_envelope_wiring (a d su r : ℚ) (st : AmplitudeEnvelopeState)
    (t du : ℚ) :
    (mkAmplitudeEnvelope a d su r).edges = [(AENode.sig, AENode.gainParam)] ∧
    (mkAmplitudeEnvelope a d su r).inputPort = AENode.gainNode ∧
    (mkAmplitudeEnvelope a d su r).outputPort = AENode.gainNode ∧
    (triggerAttack t st).edges = st.edges ∧
    (triggerAttack t st).inputPort = st.inputPort ∧
    (triggerAttack t st).outputPort = st.outputPort ∧
    (triggerRelease t st).edges = st.edges ∧
    (triggerRelease t st).inputPort = st.inputPort ∧
    (triggerRelease t st).outputPort = st.outputPort ∧
    (triggerAttackRelease du t st).edges = st.edges ∧
    (triggerAttackRelease du t st).inputPort = st.inputPort ∧
    (triggerAttackRelease du t st).outputPort = st.outputPort := by
  refine ⟨rfl, rfl, rfl, rfl, rfl, rfl, rfl, rfl, rfl, rfl, rfl, rfl⟩

/-- Claim C4: when the external loader rejects, `load` propagates the error to
its caller and the Convolver's state — the previously loaded buffer, the
convolution unit, and its connections — is exactly what it was; the buffer
setter is never invoked on the failure path. -/
theorem convolver_load_failure (s : ConvolverState) (e : LoadError) :
    Convolver.loadFrom (Except.error e) s = (s, some e) := rfl

/-- Counterexample to claim C1 as stated: give a fresh Convolver a first
buffer, assign `normalize := false`, then assign a second buffer.  The second
assignment finds the unit already holding a buffer (second conjunct), so it
swaps in a fresh native unit — and the `normalize` getter then reads the
native default `true`, not the most recently assigned value `false`. -/
theorem convolver_normalize_lost_on_swap :
    Convolver.getNormalize
        (Convolver.setNormalize false
          (Convolver.setBuffer (some ⟨[1, 2]⟩) (mkConvolver Convolver.getDefaults)))
      = false ∧
    (Convolver.setNormalize false
        (Convolver.setBuffer (some ⟨[1, 2]⟩)
          (mkConvolver Convolver.getDefaults))).convolverBuffer.isSome = true ∧
    Convolver.getNormalize
        (Convolver.setBuffer (some ⟨[3]⟩)
          (Convolver.setNormalize false
            (Convolver.setBuffer (some ⟨[1, 2]⟩)
              (mkConvolver Convolver.getDefaults)))) = true := by
  decide

/-- Claim C1 as amended: after assigning a buffer of length L > 0 through the
setter, the getter returns a buffer of length L, and assigning a length-0
buffer leaves the getter returning absence; the `normalize` getter returns the
previously held value when the assignment did not trigger a unit swap, while
an assignment that does trigger a swap (the unit already held a buffer) resets
`normalize` to the native default `true`. -/
theorem convolver_buffer_roundtrip (s : ConvolverState) (b : ToneAudioBuffer) :
    (0 < b.data.length →
      (Convolver.getBuffer (Convolver.setBuffer (some b) s)).map ToneAudioBuffer.length
        = some b.data.length) ∧
    (b.data.length = 0 → Convolver.getBuffer (Convolver.setBuffer (some b) s) = none) ∧
    Convolver.getNormalize (Convolver.setBuffer (some b) s)
      = (if s.convolverBuffer.isSome then true else Convolver.getNormalize s) := by
  have hbuf : (Convolver.setBuffer (some b) s).buf = ⟨b.data⟩ := by
    by_cases hb : s.convolverBuffer.isSome <;>
      simp [Convolver.setBuffer, Convolver.storeData, Convolver.swapUnit,
        ToneAudioBuffer.set, hb]
  refine ⟨?_, ?_, ?_⟩
  · intro h
    simp [Convolver.getBuffer, hbuf, ToneAudioBuffer.length, Nat.pos_iff_ne_zero.mp h]
  · intro h
    simp [Convolver.getBuffer, hbuf, ToneAudioBuffer.length, h]
  · by_cases hb : s.convolverBuffer.isSome <;>
      simp [Convolver.setBuffer, Convolver.storeData, Convolver.swapUnit,
        Convolver.getNormalize, hb]

/-- Witness for C1's amended theorem at a concrete input: assigning a
three-sample buffer to a fresh Convolver makes the getter return a buffer of
length 3, and since no swap was triggered the construction-time
`normalize = true` is preserved. -/
theorem convolver_buffer_roundtrip_witness :
    (Convolver.getBuffer
        (Convolver.setBuffer (some ⟨[5, 6, 7]⟩)
          (mkConvolver Convolver.getDefaults))).map ToneAudioBuffer.length
      = some 3 :=
  (convolver_buffer_roundtrip (mkConvolver Convolver.getDefaults) ⟨[5, 6, 7]⟩).1
    (by decide)

/-- Claim C2: the buffer setter first copies the data into the owned Resource
Buffer; if the unit already held a buffer it swaps in a fresh unit (new
identity drawn from the fresh counter, the old unit retired with its buffer
reference unchanged, the internal edges rewired into the same position),
otherwise the existing unit is kept; either way the resolved buffer is then
assigned to the current unit.  Consequently loading twice replaces the unit:
after the second load the current unit is a different unit holding the second
impulse, and the retired first unit still references the first impulse. -/
theorem convolver_setBuffer_substitution (s : ConvolverState) (b : ToneAudioBuffer)
    (h : s.convolverId < s.nextId) :
    (Convolver.setBuffer (some b) s).buf = ⟨b.data⟩ ∧
    (Convolver.setBuffer (some b) s).convolverBuffer
      = ToneAudioBuffer.get ⟨b.data⟩ ∧
    (s.convolverBuffer.isSome →
      (Convolver.setBuffer (some b) s).convolverId = s.nextId ∧
      (Convolver.setBuffer (some b) s).convolverId ≠ s.convolverId ∧
      (Convolver.setBuffer (some b) s).retired
        = (s.convolverId, s.convolverBuffer) :: s.retired ∧
      (Convolver.setBuffer (some b) s).edges
        = connectEffectEdges s.nextId ++
            disconnectAllFrom (ConvNode.unit s.convolverId)
              (disconnectAllFrom ConvNode.effectSend s.edges)) ∧
    (s.convolverBuffer = none →
      (Convolver.setBuffer (some b) s).convolverId = s.convolverId ∧
      (Convolver.setBuffer (some b) s).retired = s.retired ∧
      (Convolver.setBuffer (some b) s).edges = s.edges) ∧
    (∀ d1 d2 : List Int, d1 ≠ [] → d2 ≠ [] →
      (Convolver.load d2 (Convolver.load d1 (mkConvolver Convolver.getDefaults))).convolverId
          ≠ (Convolver.load d1 (mkConvolver Convolver.getDefaults)).convolverId ∧
      (Convolver.load d2 (Convolver.load d1 (mkConvolver Convolver.getDefaults))).retired.head?
          = some ((Convolver.load d1 (mkConvolver Convolver.getDefaults)).convolverId,
              some d1) ∧
      (Convolver.load d2 (Convolver.load d1 (mkConvolver Convolver.getDefaults))).convolverBuffer
          = some d2) := by
  refine ⟨?_, ?_, ?_, ?_, ?_⟩
  · by_cases hb : s.convolverBuffer.isSome <;>
      simp [Convolver.setBuffer, Convolver.storeData, Convolver.swapUnit,
        ToneAudioBuffer.set, hb]
  · by_cases hb : s.convolverBuffer.isSome <;>
      simp [Convolver.setBuffer, Convolver.storeData, Convolver.swapUnit,
        ToneAudioBuffer.set, ToneAudioBuffer.get, hb]
  · intro hb
    refine ⟨?_, ?_, ?_, ?_⟩ <;>
      simp [Convolver.setBuffer, Convolver.storeData, Convolver.swapUnit,
        ToneAudioBuffer.set, hb]
    omega
  · intro hb
    refine ⟨?_, ?_, ?_⟩ <;>
      simp [Convolver.setBuffer, Convolver.storeData, Convolver.swapUnit,
        ToneAudioBuffer.set, hb]
  · intro d1 d2 hd1 hd2
    have h1 : d1.isEmpty = false := by
      cases d1 with
      | nil => cases hd1 rfl
      | cons a t => rfl
    have h2 : d2.isEmpty = false := by
      cases d2 with
      | nil => cases hd2 rfl
      | cons a t => rfl
    refine ⟨?_, ?_, ?_⟩ <;>
      simp [Convolver.load, Convolver.setBuffer, Convolver.storeData,
        Convolver.swapUnit, ToneAudioBuffer.set, ToneAudioBuffer.get,
        ToneAudioBuffer.loaded, mkConvolver, Convolver.getDefaults,
        Convolver.setNormalize, h1, h2]

/-- Witness for C2 at a concrete input: assigning a one-sample buffer to a
fresh Convolver (whose unit identity 0 is below the fresh counter 1) stores
that sample in the owned Resource Buffer. -/
theorem convolver_setBuffer_substitution_witness :
    (Convolver.setBuffer (some ⟨[9]⟩) (mkConvolver Convolver.getDefaults)).buf
      = ⟨[9]⟩ :=
  (convolver_setBuffer_substitution (mkConvolver Convolver.getDefaults) ⟨[9]⟩
    (by decide)).1

/-- Claim C3: the internal-channel substitution removes only the outgoing
edges of the send stage and of the old unit, re-establishes the same internal
routing (send → unit → return) for the replacement unit, and leaves every
other part of the effect unchanged: the owned Resource Buffer, the disposed
flag, and every edge whose source is not the send stage or the old unit — in
particular all edges at the effect's own input and output ports and every
edge from an external node. -/
theorem convolver_swap_frame (s : ConvolverState) :
    (Convolver.swapUnit s).buf = s.buf ∧
    (Convolver.swapUnit s).disposed = s.disposed ∧
    (Convolver.swapUnit s).edges
      = connectEffectEdges (Convolver.swapUnit s).convolverId ++
          disconnectAllFrom (ConvNode.unit s.convolverId)
            (disconnectAllFrom ConvNode.effectSend s.edges) ∧
    (∀ e ∈ s.edges, e.1 ≠ ConvNode.effectSend →
      e.1 ≠ ConvNode.unit s.convolverId → e ∈ (Convolver.swapUnit s).edges) ∧
    (∀ e ∈ (Convolver.swapUnit s).edges,
      e ∈ s.edges ∨ e ∈ connectEffectEdges (Convolver.swapUnit s).convolverId) := by
  refine ⟨rfl, rfl, rfl, ?_, ?_⟩
  · intro e he h1 h2
    simp [Convolver.swapUnit, disconnectAllFrom, List.mem_filter, he, h1, h2]
  · intro e he
    simp only [Convolver.swapUnit, List.mem_append, disconnectAllFrom,
      List.mem_filter] at he
    rcases he with he | he
    · exact Or.inr he
    · exact Or.inl he.1.1

/-- Witness for C3 at a concrete input: an external edge into the effect's
input port survives the swap. -/
theorem convolver_swap_frame_witness :
    (ConvNode.ext 0, ConvNode.input) ∈
      (Convolver.swapUnit
        { convolverId := 0
          convolverBuffer := some [1]
          normalize := true
          buf := ⟨[1]⟩
          nextId := 1
          edges := [(ConvNode.ext 0, ConvNode.input)]
          retired := []
          disposed := false }).edges :=
  (convolver_swap_frame
    { convolverId := 0
      convolverBuffer := some [1]
      normalize := true
      buf := ⟨[1]⟩
      nextId := 1
      edges := [(ConvNode.ext 0, ConvNode.input)]
      retired := []
      disposed := false }).2.2.2.1
    (ConvNode.ext 0, ConvNode.input) (by decide) (by decide) (by decide)

/-- Claim C6: for every fade in [0,1] the crossfader's derived gains obey the
equal-power law g_a² + g_b² = 1, with g_a(0) = 1, g_b(0) = 0, g_a(1) = 0,
g_b(1) = 1, and g_a(1/2) = g_b(1/2). -/
theorem crossfade_equal_power (fade : ℝ) (h0 : 0 ≤ fade) (h1 : fade ≤ 1) :
    g_a fade ^ 2 + g_b fade ^ 2 = 1 ∧
    g_a 0 = 1 ∧ g_b 0 = 0 ∧ g_a 1 = 0 ∧ g_b 1 = 1 ∧
    g_a (1/2) = g_b (1/2) := by
  have hz : pannerPhase (gainToAudio 0) = 0 := by
    unfold pannerPhase gainToAudio; ring
  have ho : pannerPhase (gainToAudio 1) = Real.pi / 2 := by
    unfold pannerPhase gainToAudio; ring
  have hh : pannerPhase (gainToAudio (1/2)) = Real.pi / 4 := by
    unfold pannerPhase gainToAudio; ring
  refine ⟨Real.cos_sq_add_sin_sq _, ?_, ?_, ?_, ?_, ?_⟩
  · unfold g_a; rw [hz, Real.cos_zero]
  · unfold g_b; rw [hz, Real.sin_zero]
  · unfold g_a; rw [ho, Real.cos_pi_div_two]
  · unfold g_b; rw [ho, Real.sin_pi_div_two]
  · unfold g_a g_b; rw [hh, Real.cos_pi_div_four, Real.sin_pi_div_four]

/-- Witness for C6 at the concrete fade 1/2, which lies in [0,1]. -/
theorem crossfade_equal_power_witness :
    g_a (1/2) ^ 2 + g_b (1/2) ^ 2 = 1 :=
  (crossfade_equal_power (1/2) (by norm_num) (by norm_num)).1

/-- Claim C10: assigning null through the buffer setter leaves the owned
Resource Buffer untouched and (on any state reachable by the constructor and
the operations, captured by `ConvInv`) leaves the audible unit buffer content
unchanged; if the unit already held a buffer the setter still swaps in a fresh
unit, and if it held none the assignment is a complete no-op. -/
theorem convolver_set_null (s : ConvolverState) (h : ConvInv s) :
    (Convolver.setBuffer none s).buf = s.buf ∧
    (Convolver.setBuffer none s).convolverBuffer = s.convolverBuffer ∧
    (s.convolverBuffer.isSome →
      (Convolver.setBuffer none s).convolverId = s.nextId ∧
      (Convolver.setBuffer none s).convolverId ≠ s.convolverId) ∧
    (s.convolverBuffer = none → Convolver.setBuffer none s = s) := by
  obtain ⟨hlt, hcb⟩ := h
  refine ⟨?_, ?_, ?_, ?_⟩
  · by_cases hb : s.convolverBuffer.isSome <;>
      simp [Convolver.setBuffer, Convolver.storeData, Convolver.swapUnit, hb]
  · have hg : (Convolver.setBuffer none s).convolverBuffer = s.buf.get := by
      by_cases hb : s.convolverBuffer.isSome <;>
        simp [Convolver.setBuffer, Convolver.storeData, Convolver.swapUnit, hb]
    rw [hg, hcb]
  · intro hb
    constructor <;>
      simp [Convolver.setBuffer, Convolver.storeData, Convolver.swapUnit, hb]
    omega
  · intro hb
    have hg : s.buf.get = none := by rw [← hcb, hb]
    simp only [Convolver.setBuffer, Convolver.storeData, hb, hg, Option.isSome_none,
      Bool.false_eq_true, if_false]
    rw [← hb]

/-- Witness for C10 at a concrete input: the state after assigning a
one-sample buffer to a fresh Convolver satisfies the invariant and its unit
holds a buffer, so a null assignment swaps in a fresh unit while the unit's
buffer content is preserved. -/
theorem convolver_set_null_witness :
    (Convolver.setBuffer none
        (Convolver.setBuffer (some ⟨[1]⟩)
          (mkConvolver Convolver.getDefaults))).convolverBuffer
      = (Convolver.setBuffer (some ⟨[1]⟩)
          (mkConvolver Convolver.getDefaults)).convolverBuffer :=
  (convolver_set_null
    (Convolver.setBuffer (some ⟨[1]⟩) (mkConvolver Convolver.getDefaults))
    ⟨by decide, by decide⟩).2.1
